import Mathlib

/-!
Shallow embedding of the `s3os` repository (files `s3os/file_ops.py`,
`s3os/s3_file_ops.py`, `s3os/list_ops.py`, `s3os/utils.py`).

Python strings are modelled as `List Char` (`PyStr`).  The local filesystem
and the regex-search primitive are passed in as explicit environment
functions (`walk`, `glob`, `research`), since the code only consumes their
results.  The S3 bucket is modelled as an association list from keys to
object sizes (`Store`).  Python's `str.upper` is modelled with
`Char.toUpper`, which agrees with it on ASCII names.  Fallible Python code
returns `Except PyErr`.
-/

abbrev PyStr := List Char

def pyS (s : String) : PyStr := s.toList

/-- The error kinds this layer can surface (Python exception classes). -/
inductive PyErr where
  | attributeError
  | nameError
  | keyError
  | clientError
  | invalidFilterCombination
  | emptyAggregation
  deriving DecidableEq, Repr

/-- Python's substring containment `sub in s` on strings. -/
def subIn (sub s : PyStr) : Bool := decide (sub <:+: s)

def upperChars (s : PyStr) : PyStr := s.map Char.toUpper

/-- Model of `os.path.basename` (POSIX): the part after the last slash. -/
def basename (p : PyStr) : PyStr :=
  (p.reverse.takeWhile (fun c => c != '/')).reverse

/-- The part of `p` up to and including the last slash (empty if no slash). -/
def dirnameRaw (p : PyStr) : PyStr :=
  (p.reverse.dropWhile (fun c => c != '/')).reverse

/-- Model of `os.path.dirname` (POSIX): head up to the last slash with
trailing slashes stripped, unless the head is empty or all slashes. -/
def dirname (p : PyStr) : PyStr :=
  let head := dirnameRaw p
  if !head.isEmpty && !(head.all (fun c => c == '/')) then
    (head.reverse.dropWhile (fun c => c == '/')).reverse
  else head

/-- The `substrings` argument of `get_list_of_file_paths_in_dir`:
Python `None`, a single `str`, or a `list` of strings. -/
inductive Subs where
  | noneS
  | strS (s : PyStr)
  | listS (l : List PyStr)

/-- Model of `file_ops.get_list_of_subdir_in_dir`: the roots reported by
`os.walk` (environment `walk`), each given a trailing separator when it
lacks one, with roots containing `.ipynb_checkpoints` dropped. -/
def get_list_of_subdir_in_dir (walk : PyStr → List PyStr) (d : PyStr) : List PyStr :=
  ((walk d).map (fun root =>
      if root.getLast? = some '/' then root else root ++ ['/'])).filter
    (fun root => !(subIn (pyS ".ipynb_checkpoints") root))

/-- The non-recursive body of `file_ops.get_list_of_file_paths_in_dir`
(lines 81-99): glob the directory, then apply the three filter branches.
Note that the literal-substring branch tests the substrings against the
full path `f`, while the regex branch tests against `basename f`. -/
def flatList (glob : PyStr → List PyStr) (research : PyStr → PyStr → Bool)
    (d : PyStr) (subs : Subs) (regex : Bool) : Except PyErr (List PyStr) :=
  let fs := glob d
  match regex, subs with
  | true, .listS _ => .error .invalidFilterCombination
  | true, .strS s => .ok (fs.filter (fun f => research s (basename f)))
  | true, .noneS => .ok []
  | false, .strS s =>
      .ok (fs.filter (fun f =>
        (s.splitOn ' ').all (fun sub => subIn (upperChars sub) (upperChars f))))
  | false, .listS l =>
      .ok (fs.filter (fun f =>
        l.all (fun sub => subIn (upperChars sub) (upperChars f))))
  | false, .noneS => .ok fs

/-- Consuming the `yield from` loop over the precomputed subdirectories:
concatenates each subdirectory's non-recursive listing, propagating the
first exception. -/
def yieldAll (glob : PyStr → List PyStr) (research : PyStr → PyStr → Bool)
    (subs : Subs) (regex : Bool) : List PyStr → Except PyErr (List PyStr)
  | [] => .ok []
  | d :: ds =>
    match flatList glob research d subs regex with
    | .error e => .error e
    | .ok xs =>
      match yieldAll glob research subs regex ds with
      | .error e => .error e
      | .ok ys => .ok (xs ++ ys)

/-- Model of `file_ops.get_list_of_file_paths_in_dir`, fully consumed.
With `subfolders = true` it first yields every subdirectory's immediate
entries and then falls through to yield the root's own immediate entries. -/
def get_list_of_file_paths_in_dir (walk glob : PyStr → List PyStr)
    (research : PyStr → PyStr → Bool) (d : PyStr) (subs : Subs)
    (subfolders regex : Bool) : Except PyErr (List PyStr) :=
  if subfolders then
    match yieldAll glob research subs regex (get_list_of_subdir_in_dir walk d) with
    | .error e => .error e
    | .ok parts =>
      match flatList glob research d subs regex with
      | .error e => .error e
      | .ok tail => .ok (parts ++ tail)
  else flatList glob research d subs regex

/-- The argument of `get_dir_names_from_paths`: `is_list_like` distinguishes
a single path from a collection of paths. -/
inductive PathsArg where
  | single (p : PyStr)
  | many (ps : List PyStr)

/-- The two result shapes of `get_dir_names_from_paths`. -/
inductive DirRes where
  | names (l : List PyStr)
  | name (s : PyStr)
  deriving DecidableEq

/-- Model of `file_ops.get_dir_names_from_paths`.  The list branch builds
`list(set(dirname(p) + sep for p in paths))` (modelled with `dedup`).  The
single-path branch reads the undefined local variable `this_path`
(the parameter is `list_of_file_paths`), so it raises `NameError`. -/
def get_dir_names_from_paths : PathsArg → Except PyErr DirRes
  | .many ps => .ok (.names ((ps.map (fun p => dirname p ++ ['/'])).dedup))
  | .single _ => .error .nameError

/-- Model of `pd.concat`: row-wise concatenation, raising on an empty list
(the spec's `EmptyAggregation`). -/
def pdConcat {α : Type} (dfs : List (List α)) : Except PyErr (List α) :=
  if dfs.isEmpty then .error .emptyAggregation else .ok dfs.flatten

/-- Model of `file_ops.read_all_csv_files_in_directory_as_one_df`:
list matching files (regex off), read each as a table (environment
`readT`), concatenate. -/
def file_ops_read_all_csv {α : Type} (walk glob : PyStr → List PyStr)
    (research : PyStr → PyStr → Bool) (readT : PyStr → List α)
    (folder : PyStr) (subs : Subs) (subfolders : Bool) : Except PyErr (List α) :=
  match get_list_of_file_paths_in_dir walk glob research folder subs subfolders false with
  | .error e => .error e
  | .ok files => pdConcat (files.map readT)

/-! ## The S3 layer (`s3os/s3_file_ops.py`) -/

/-- The bucket contents: an association list from object keys to sizes
in bytes (the body content beyond its length is irrelevant to the layer). -/
abbrev Store := List (PyStr × Nat)

def storeGet (st : Store) (k : PyStr) : Option Nat :=
  (st.find? (fun kv => kv.1 == k)).map (fun kv => kv.2)

/-- Writing an object: replaces any existing object at the key. -/
def storePut (st : Store) (k : PyStr) (sz : Nat) : Store :=
  st.filter (fun kv => kv.1 != k) ++ [(k, sz)]

/-- `S3os.copy`: server-side copy; the provider fails on a missing source. -/
def s3_copy (st : Store) (src dst : PyStr) : Except PyErr Store :=
  match storeGet st src with
  | none => .error .clientError
  | some sz => .ok (storePut st dst sz)

/-- `S3os.remove` via `Object.delete()`: deleting a missing key is a
silent no-op for the provider. -/
def s3_remove (st : Store) (k : PyStr) : Store :=
  st.filter (fun kv => kv.1 != k)

/-- The method names the class `S3os` defines (`self.<name>` resolves
against these; anything else raises `AttributeError`). -/
def s3osMethods : List PyStr :=
  [pyS "listdir", pyS "copy", pyS "remove", pyS "rename",
   pyS "save_dataframe", pyS "download_dir", pyS "upload_dir",
   pyS "exists", pyS "create_if_not_exists",
   pyS "read_all_csv_files_in_directory_as_one_df"]

def s3osHasMethod (m : PyStr) : Bool := s3osMethods.contains m

/-- `S3os.rename`: `self.copy(old_key, new_key)` then `self.delete(old_key)`.
The second step is an attribute lookup of `delete` on the object; the class
defines `remove`, not `delete`.  The result pairs the bucket state after
whatever executed with the exception raised, if any. -/
def s3_rename (st : Store) (oldKey newKey : PyStr) : Store × Option PyErr :=
  match s3_copy st oldKey newKey with
  | .error e => (st, some e)
  | .ok st' =>
    if s3osHasMethod (pyS "delete") then (s3_remove st' oldKey, none)
    else (st', some .attributeError)

/-- `S3os.listdir`: every key of the bucket under the given key prefix,
optionally narrowed to keys containing a literal substring. -/
def s3_listdir (st : Store) (dirPath : PyStr) (substring : Option PyStr) : List PyStr :=
  let allKeys := (st.map (fun kv => kv.1)).filter (fun k => dirPath.isPrefixOf k)
  match substring with
  | none => allKeys
  | some s => allKeys.filter (fun f => subIn s f)

/-- A `list_objects_v2` response: the returned page of (key, size) pairs and
the reported `KeyCount`. -/
structure S3Resp where
  contents : List (PyStr × Nat)
  keyCount : Nat
  deriving DecidableEq

/-- A single `list_objects_v2` page for a prefix: the provider caps the
page at 1000 keys and reports the returned count. -/
def mkResponse (st : Store) (pfx : PyStr) : S3Resp :=
  let ms := st.filter (fun kv => pfx.isPrefixOf kv.1)
  ⟨ms.take 1000, min ms.length 1000⟩

/-- The sum in `S3os.exists` over the response contents, keeping entries
whose key matches `re.compile(key_prefix)` anchored at the start.  For a
metacharacter-free pattern, `re.match` is exactly a prefix test, which is
how it is modelled. -/
def sumMatched (pfx : PyStr) (resp : S3Resp) : Nat :=
  ((resp.contents.filter (fun kv => pfx.isPrefixOf kv.1)).map (fun kv => kv.2)).sum

def digitChar (d : Nat) : Char := Char.ofNat (48 + d)

/-- Decimal digits of a natural number; the fuel of 64 covers every number
below 10^64, far beyond any object size the layer can meet. -/
def natDigitsAux : Nat → Nat → PyStr
  | 0, _ => []
  | fuel+1, m =>
    if m = 0 then [] else natDigitsAux fuel (m / 10) ++ [digitChar (m % 10)]

/-- Model of Python `str` on a nonnegative int. -/
def natToChars (m : Nat) : PyStr :=
  if m = 0 then ['0'] else natDigitsAux 64 m

/-- The `power_labels` dict of `_format_file_size`: defined only for
indices 0..3 (`''`, `'k'`, `'M'`, `'G'`); any other lookup is a `KeyError`. -/
def powerLabels : Nat → Option PyStr
  | 0 => some []
  | 1 => some ['k']
  | 2 => some ['M']
  | 3 => some ['G']
  | _ => none

/-- The `while size > power` loop of `_format_file_size`, counting the
divisions by 1024.  The running value after `n` steps is exactly
`s / 1024 ^ n`, so the loop guard `size > 1024` is the integer comparison
`1024 * 1024 ^ n < s` (Python's successive float divisions by 1024 are
exact for the sizes at issue).  The fuel of 64 covers every size below
1024^64; if it were ever exhausted the returned index 64 still has no
`power_labels` entry, exactly as Python's longer-running loop would end at
an index with no entry, so the observable result agrees for every size. -/
def divLoopN : Nat → Nat → Nat → Nat
  | 0, _, n => n
  | fuel+1, s, n => if 1024 * 1024 ^ n < s then divLoopN fuel s (n+1) else n

def fmtN (s : Nat) : Nat := divLoopN 64 s 0

/-- Python `round(x, 2)` on the exact value `s / 1024 ^ n`, as integer
hundredths, with round-half-to-even ties. -/
def roundHundredths (s n : Nat) : Nat :=
  let t := 100 * s
  let d := 1024 ^ n
  let fl := t / d
  let rem := t % d
  if d < 2 * rem then fl + 1
  else if 2 * rem < d then fl
  else if fl % 2 = 0 then fl else fl + 1

/-- Python `str(round(size, 2))`: if the loop never ran, `size` is still the
original int; otherwise it is a float and prints with a decimal point,
minimal digits. -/
def renderHundredths (m : Nat) : PyStr :=
  let ip := m / 100
  let fr := m % 100
  natToChars ip ++ '.' ::
    (if fr = 0 then ['0']
     else if fr % 10 = 0 then [digitChar (fr / 10)]
     else [digitChar (fr / 10), digitChar (fr % 10)])

def renderPy (s n : Nat) : PyStr :=
  if n = 0 then natToChars s else renderHundredths (roundHundredths s n)

/-- Model of `S3os.exists._format_file_size`: `None` models a raised
`KeyError` from the `power_labels` lookup. -/
def formatFileSize (s : Nat) : Option PyStr :=
  (powerLabels (fmtN s)).map (fun lab => renderPy s (fmtN s) ++ ' ' :: (lab ++ ['B']))

/-- The dynamic result type of `S3os.exists`: Python `None`, an `int`, or a
`str`. -/
inductive PyVal where
  | vNone
  | vInt (n : Nat)
  | vStr (s : PyStr)
  deriving DecidableEq

/-- Model of `S3os.exists` applied to a listing response: sum the matched
sizes; `None` when the sum is zero; optionally format the size; prepend
`'>'` to `str(size)` when the reported key count equals the 1000-key page
cap. -/
def s3_exists (pfx : PyStr) (formatSize : Bool) (resp : S3Resp) : Except PyErr PyVal :=
  if sumMatched pfx resp = 0 then .ok .vNone
  else if formatSize then
    match formatFileSize (sumMatched pfx resp) with
    | none => .error .keyError
    | some fstr => .ok (.vStr (if resp.keyCount = 1000 then '>' :: fstr else fstr))
  else if resp.keyCount = 1000 then .ok (.vStr ('>' :: natToChars (sumMatched pfx resp)))
  else .ok (.vInt (sumMatched pfx resp))

/-- The diagnostic `mem_check` message `create_if_not_exists` emits. -/
inductive Diag where
  | created
  | alreadyExists
  deriving DecidableEq

/-- Model of `S3os.create_if_not_exists`.  The source calls
`self.exists(self.bucket_name, key)`: positionally, `key_prefix` receives
the bucket name and `format_size` receives `key` (truthy when nonempty).
If that returns `None`, `put_object` writes an empty object at `key`. -/
def create_if_not_exists (bucketName : PyStr) (st : Store) (k : PyStr) :
    Except PyErr (Store × Diag) :=
  match s3_exists bucketName (!k.isEmpty) (mkResponse st bucketName) with
  | .error e => .error e
  | .ok v =>
    if v = PyVal.vNone then .ok (storePut st k 0, .created)
    else .ok (st, .alreadyExists)

/-- The first run of digits in a key, as matched by `re.search('[0-9]+')`. -/
def firstDigitRun : PyStr → Option PyStr
  | [] => none
  | c :: rest =>
    if c.isDigit then some (c :: rest.takeWhile Char.isDigit)
    else firstDigitRun rest

/-- Integer value of a digit run (`int(file[start:end])`). -/
def digitsVal (ds : PyStr) : Nat :=
  ds.foldl (fun a c => 10 * a + (c.toNat - 48)) 0

/-- The per-key filter of `S3os.read_all_csv_files_in_directory_as_one_df`:
keep keys ending in `.csv` whose first digit run is a nonzero integer. -/
def remoteKeep (k : PyStr) : Bool :=
  (pyS ".csv").isSuffixOf k &&
    match firstDigitRun k with
    | none => false
    | some run => digitsVal run != 0

/-- Model of `S3os.read_all_csv_files_in_directory_as_one_df`: list the
keys under the prefix, keep those passing `remoteKeep`, read each from its
remote address (environment `readCsv`), concatenate. -/
def s3_read_all_csv {α : Type} (st : Store) (dirPath : PyStr)
    (readCsv : PyStr → List α) : Except PyErr (List α) :=
  pdConcat (((s3_listdir st dirPath none).filter remoteKeep).map readCsv)

/-! ## Concrete instances used by the claim theorems -/

/-- Listing response for two matched objects of sizes 100 and 1924 bytes. -/
def respC5 : S3Resp := mkResponse [(pyS "k1", 100), (pyS "k2", 1924)] (pyS "k")

/-- A bucket with 1000 objects of one byte each under the prefix `k`. -/
def storeBig : Store :=
  (List.range 1000).map
    (fun i => (pyS "k" ++ [digitChar (i / 100), digitChar ((i / 10) % 10), digitChar (i % 10)], 1))

/-- The single listing page for `storeBig`: a full page of 1000 keys. -/
def respBig : S3Resp := mkResponse storeBig (pyS "k")

/-- An uncapped listing whose matched sizes also sum to 1000 bytes. -/
def respSmall : S3Resp := mkResponse [(pyS "kz", 1000)] (pyS "k")

/-- A bucket with 1000 zero-byte objects under the prefix `k` (directory
markers, or the empty objects `create_if_not_exists` itself writes). -/
def storeZeroBig : Store :=
  (List.range 1000).map
    (fun i => (pyS "k" ++ [digitChar (i / 100), digitChar ((i / 10) % 10), digitChar (i % 10)], 0))

/-- The single listing page for `storeZeroBig`: a full page of 1000 keys
whose sizes sum to zero. -/
def respZeroBig : S3Resp := mkResponse storeZeroBig (pyS "k")

/-- A one-directory glob environment holding the single path `ab/cd`. -/
def glb2 : PyStr → List PyStr := fun d => if d = pyS "p" then [pyS "ab/cd"] else []

/-- Walk environment for the recursion theorem: root `r` with subfolder `r/s`. -/
def walk9 : PyStr → List PyStr := fun d => if d = pyS "r" then [pyS "r", pyS "r/s"] else []

/-- Glob environment matching `walk9`. -/
def glob9 : PyStr → List PyStr := fun d =>
  if d = pyS "r" then [pyS "r/a.csv"]
  else if d = pyS "r/" then [pyS "r/a.csv"]
  else if d = pyS "r/s/" then [pyS "r/s/b.csv"]
  else []

/-! ## Helper lemmas -/

theorem subIn_iff (sub s : PyStr) : subIn sub s = true ↔ sub <:+: s := by
  simp [subIn]

theorem divLoopN_mono (f : Nat) : ∀ (s n : Nat), n ≤ divLoopN f s n := by
  induction f with
  | zero => intro s n; simp [divLoopN]
  | succ f ih =>
      intro s n
      simp only [divLoopN]
      split
      · exact le_trans (Nat.le_succ n) (ih s (n+1))
      · exact Nat.le_refl n

theorem divLoopN_lower : ∀ (k f s n : Nat), k ≤ f → 1024 ^ (n + k) < s →
    n + k ≤ divLoopN f s n := by
  intro k
  induction k with
  | zero =>
      intro f s n _ _
      simpa using divLoopN_mono f s n
  | succ k ih =>
      intro f s n hkf hlt
      cases f with
      | zero => omega
      | succ f =>
          have h1 : 1024 * 1024 ^ n = 1024 ^ (n + 1) := by ring
          have h2 : (1024:Nat) ^ (n + 1) ≤ 1024 ^ (n + (k + 1)) :=
            Nat.pow_le_pow_right (by norm_num) (by omega)
          have hcond : 1024 * 1024 ^ n < s := by omega
          have hstep : divLoopN (f+1) s n = divLoopN f s (n+1) := by
            simp [divLoopN, hcond]
          have hlt' : 1024 ^ ((n+1) + k) < s := by
            have hx : (n+1) + k = n + (k+1) := by omega
            rw [hx]; exact hlt
          have hrec := ih f s (n+1) (by omega) hlt'
          rw [hstep]
          omega

theorem powerLabels_ge4 (n : Nat) (h : 4 ≤ n) : powerLabels n = none := by
  obtain ⟨m, rfl⟩ : ∃ m, n = m + 4 := ⟨n - 4, by omega⟩
  rfl

/-! ## Claim theorems -/

/-- C1: the claim states that `rename(old_key, new_key)` copies and then
deletes the old key, so that a successful call leaves the object only at
`new_key`.  The code instead calls `self.delete`, a method `S3os` never
defines (it defines `remove`), so after the copy succeeds the call raises
`AttributeError`: both keys remain and no call of `rename` ever returns
without an exception. -/
theorem C1_rename_defect :
    s3_rename [(pyS "a", 5)] (pyS "a") (pyS "b")
      = ([(pyS "a", 5), (pyS "b", 5)], some PyErr.attributeError)
    ∧ s3osHasMethod (pyS "delete") = false
    ∧ ∀ (st : Store) (oldKey newKey : PyStr),
        (s3_rename st oldKey newKey).2.isSome = true := by
  refine ⟨by rfl, by rfl, ?_⟩
  intro st oldKey newKey
  cases h : s3_copy st oldKey newKey with
  | error e => simp [s3_rename, h]
  | ok st' =>
      simp [s3_rename, h, show s3osHasMethod (pyS "delete") = false from rfl]

/-- C2 (counterexample): with the literal filter `["ab"]`, the candidate
path `ab/cd` is yielded although `ab` does not occur (case-insensitively)
in its base name `cd` — refuting the claim that matching is against the
base name. -/
theorem C2_counterexample :
    get_list_of_file_paths_in_dir (fun _ => []) glb2 (fun _ _ => false) (pyS "p")
      (.listS [pyS "ab"]) false false = .ok [pyS "ab/cd"]
    ∧ ¬ (upperChars (pyS "ab") <:+: upperChars (basename (pyS "ab/cd"))) :=
  ⟨by rfl, by decide⟩

/-- C2 (amended): with a list filter and the regex flag off, a candidate is
yielded iff it was globbed and every substring of the list occurs
case-insensitively (uppercasing both sides) in the candidate's full path. -/
theorem C2_matches_full_path (walk glob : PyStr → List PyStr)
    (research : PyStr → PyStr → Bool) (d : PyStr) (subsL : List PyStr) :
    ∃ L, get_list_of_file_paths_in_dir walk glob research d (.listS subsL) false false = .ok L
      ∧ ∀ f, f ∈ L ↔ f ∈ glob d ∧ ∀ sub ∈ subsL, upperChars sub <:+: upperChars f := by
  refine ⟨_, rfl, ?_⟩
  intro f
  rw [List.mem_filter]
  simp [List.all_eq_true, subIn_iff]

set_option maxRecDepth 100000 in
/-- C3 (counterexample): the claim fails twice on the code.  First, a full
page (key count 1000) of zero-byte objects makes `exists` return absence —
no greater-than result at all, for either flag — because the zero-sum
check runs before the key-count check.  Second, when a greater-than result
is produced, it is the string obtained by prepending the character `'>'`
to the very string an uncapped listing of the same total size returns —
the same `vStr` variant, distinguishable only by its first character, not
a tagged variant. -/
theorem C3_counterexample :
    respZeroBig.keyCount = 1000
    ∧ s3_exists (pyS "k") false respZeroBig = .ok PyVal.vNone
    ∧ s3_exists (pyS "k") true respZeroBig = .ok PyVal.vNone
    ∧ s3_exists (pyS "k") true respBig = .ok (.vStr ('>' :: pyS "1000 B"))
    ∧ s3_exists (pyS "k") true respSmall = .ok (.vStr (pyS "1000 B")) :=
  ⟨by rfl, by rfl, by rfl, by rfl, by rfl⟩

/-- C3 (amended): when the single listing page reports the 1000-key cap,
`exists` returns absence if the matched sizes sum to zero (the zero-sum
return precedes the cap check); otherwise it returns a string whose first
character is `'>'` followed by the rendering of the size — a greater-than
lower bound rather than an exact value, marked by a string prefix rather
than a distinct tagged variant. -/
theorem C3_capped_sentinel (pfx : PyStr) (resp : S3Resp)
    (hkc : resp.keyCount = 1000) :
    (sumMatched pfx resp = 0 →
      ∀ fsFlag, s3_exists pfx fsFlag resp = .ok PyVal.vNone)
    ∧ (sumMatched pfx resp ≠ 0 →
        s3_exists pfx false resp = .ok (.vStr ('>' :: natToChars (sumMatched pfx resp)))
        ∧ ∀ fstr, formatFileSize (sumMatched pfx resp) = some fstr →
            s3_exists pfx true resp = .ok (.vStr ('>' :: fstr))) := by
  refine ⟨?_, fun hs => ⟨?_, ?_⟩⟩
  · intro h0 fsFlag
    simp [s3_exists, h0]
  · simp [s3_exists, hs, hkc]
  · intro fstr hf
    simp [s3_exists, hs, hkc, hf]

set_option maxRecDepth 100000 in
/-- C3 (witness): the capped-listing theorem applied to the concrete
full-page listings `respBig` (nonzero sum) and `respZeroBig` (zero sum). -/
theorem C3_witness :
    s3_exists (pyS "k") false respBig
      = .ok (.vStr ('>' :: natToChars (sumMatched (pyS "k") respBig)))
    ∧ s3_exists (pyS "k") true respBig = .ok (.vStr ('>' :: pyS "1000 B"))
    ∧ s3_exists (pyS "k") true respZeroBig = .ok PyVal.vNone :=
  ⟨((C3_capped_sentinel (pyS "k") respBig (by rfl)).2 (by decide)).1,
   ((C3_capped_sentinel (pyS "k") respBig (by rfl)).2 (by decide)).2 (pyS "1000 B") (by rfl),
   (C3_capped_sentinel (pyS "k") respZeroBig (by rfl)).1 (by rfl) true⟩

/-- C4: the claim states that `create_if_not_exists(key)` checks existence
at `key` and leaves the state untouched (except a diagnostic) when the key
already holds an object.  The code calls `self.exists(self.bucket_name,
key)`, so the check queries the prefix `bucket_name` (with `format_size`
bound to `key`): with an existing 7-byte object at the key and no key
starting with the bucket name, the check reports absence and `put_object`
overwrites the object with an empty one. -/
theorem C4_create_overwrites :
    storeGet [(pyS "data/f.csv", 7)] (pyS "data/f.csv") = some 7
    ∧ create_if_not_exists (pyS "b") [(pyS "data/f.csv", 7)] (pyS "data/f.csv")
        = .ok ([(pyS "data/f.csv", 0)], Diag.created) :=
  ⟨by rfl, by rfl⟩

/-- C5: `exists` returns absence whenever the matched sizes sum to zero
(in particular when nothing matches); on matched sizes 100 and 1924 it
returns the exact integer 2024 without formatting and the string
`"1.98 kB"` with formatting. -/
theorem C5_exists_values :
    (∀ (pfx : PyStr) (fsFlag : Bool) (resp : S3Resp),
        sumMatched pfx resp = 0 → s3_exists pfx fsFlag resp = .ok .vNone)
    ∧ s3_exists (pyS "k") false respC5 = .ok (.vInt 2024)
    ∧ s3_exists (pyS "k") true respC5 = .ok (.vStr (pyS "1.98 kB")) := by
  refine ⟨?_, by rfl, by rfl⟩
  intro pfx fsFlag resp h
  simp [s3_exists, h]

/-- C5 (witness): the absence case of the `exists` theorem at an empty
listing. -/
theorem C5_witness :
    s3_exists (pyS "z") false (mkResponse [] (pyS "z")) = .ok PyVal.vNone :=
  C5_exists_values.1 (pyS "z") false (mkResponse [] (pyS "z")) (by rfl)

/-- C6: the claim states that `get_dir_names_from_paths` handles both a
collection (returning the set of parents, each with a trailing separator)
and a single path (returning its parent).  The collection branch does
behave so — three paths with one parent give the one-element set — but the
single-path branch reads an undefined variable and raises `NameError`
instead of returning `User/project/`. -/
theorem C6_dirname_results :
    get_dir_names_from_paths
        (.many [pyS "User/project/a.txt", pyS "User/project/b.txt", pyS "User/project/c.txt"])
      = .ok (.names [pyS "User/project/"])
    ∧ get_dir_names_from_paths (.single (pyS "User/project/file.txt"))
        = .error .nameError :=
  ⟨by rfl, by rfl⟩

/-- C7: both CSV aggregators fail with the empty-aggregation error rather
than returning an empty table whenever their matched-file list is empty —
the local one when the traversal yields no paths, the remote one when no
listed key passes the `.csv`-with-nonzero-digit filter. -/
theorem C7_empty_aggregation :
    (∀ {α : Type} (walk glob : PyStr → List PyStr) (research : PyStr → PyStr → Bool)
        (readT : PyStr → List α) (folder : PyStr) (subs : Subs) (subfolders : Bool),
      get_list_of_file_paths_in_dir walk glob research folder subs subfolders false = .ok [] →
      file_ops_read_all_csv walk glob research readT folder subs subfolders
        = .error .emptyAggregation)
    ∧ (∀ {α : Type} (st : Store) (readCsv : PyStr → List α) (dirPath : PyStr),
        (s3_listdir st dirPath none).filter remoteKeep = [] →
        s3_read_all_csv st dirPath readCsv = .error .emptyAggregation) := by
  constructor
  · intro α walk glob research readT folder subs subfolders h
    simp [file_ops_read_all_csv, h, pdConcat]
  · intro α st readCsv dirPath h
    simp [s3_read_all_csv, h, pdConcat]

/-- C7 (witness): the empty-aggregation theorem at a directory with no
entries (local) and a bucket whose sole key is not a CSV (remote). -/
theorem C7_witness :
    file_ops_read_all_csv (fun _ => []) (fun _ => []) (fun _ _ => false)
      (fun _ => ([] : List Nat)) (pyS "e") .noneS false = .error .emptyAggregation
    ∧ s3_read_all_csv [(pyS "d/readme.txt", 3)] (pyS "d/")
        (fun _ => ([] : List Nat)) = .error .emptyAggregation :=
  ⟨C7_empty_aggregation.1 _ _ _ _ _ _ _ (by rfl),
   C7_empty_aggregation.2 _ _ _ (by rfl)⟩

/-- C8: the remote CSV aggregator keeps exactly the listed keys that end
in `.csv` and whose first digit run is a nonzero integer; on a directory
holding `data_0.csv` and `data_5.csv` it aggregates only the latter. -/
theorem C8_csv_digit_filter :
    (∀ (keys : List PyStr) (k : PyStr),
        k ∈ keys.filter remoteKeep ↔
          k ∈ keys ∧ (pyS ".csv") <:+ k
            ∧ ∃ run, firstDigitRun k = some run ∧ digitsVal run ≠ 0)
    ∧ ∀ {α : Type} (readCsv : PyStr → List α),
        s3_read_all_csv [(pyS "data/data_0.csv", 3), (pyS "data/data_5.csv", 7)]
          (pyS "data/") readCsv = .ok (readCsv (pyS "data/data_5.csv")) := by
  constructor
  · intro keys k
    rw [List.mem_filter]
    refine and_congr_right (fun _ => ?_)
    cases h : firstDigitRun k with
    | none => simp [remoteKeep, h]
    | some run => simp [remoteKeep, h]
  · intro α readCsv
    have hl : ((s3_listdir [(pyS "data/data_0.csv", 3), (pyS "data/data_5.csv", 7)]
        (pyS "data/") none).filter remoteKeep) = [pyS "data/data_5.csv"] := by rfl
    simp [s3_read_all_csv, hl, pdConcat]

/-- C9: for any environment, root, filter and regex flag, the list yielded
with `subfolders = true` ends with the list yielded with
`subfolders = false` (the recursive listing re-yields the root's own
entries after all subfolder entries), so it contains every path of the
non-recursive listing with at least its multiplicity. -/
theorem C9_recursive_superset (walk glob : PyStr → List PyStr)
    (research : PyStr → PyStr → Bool) (d : PyStr) (subs : Subs) (regex : Bool)
    (l l' : List PyStr)
    (h1 : get_list_of_file_paths_in_dir walk glob research d subs false regex = .ok l)
    (h2 : get_list_of_file_paths_in_dir walk glob research d subs true regex = .ok l') :
    l <:+ l' := by
  have hflat : flatList glob research d subs regex = .ok l := h1
  cases hy : yieldAll glob research subs regex (get_list_of_subdir_in_dir walk d) with
  | error e =>
      rw [get_list_of_file_paths_in_dir] at h2
      simp [hy] at h2
  | ok parts =>
      rw [get_list_of_file_paths_in_dir] at h2
      simp [hy, hflat] at h2
      exact h2 ▸ List.suffix_append parts l

/-- C9 (witness): the superset theorem at a concrete two-directory tree. -/
theorem C9_witness :
    [pyS "r/a.csv"] <:+ [pyS "r/a.csv", pyS "r/s/b.csv", pyS "r/a.csv"] :=
  C9_recursive_superset walk9 glob9 (fun _ _ => false) (pyS "r") .noneS false
    [pyS "r/a.csv"] [pyS "r/a.csv", pyS "r/s/b.csv", pyS "r/a.csv"] (by rfl) (by rfl)

/-- C10: the byte-size formatter of `exists` is not total: whenever the
matched sizes sum to more than 1024^4 bytes, the division loop reaches a
unit index of at least 4, the `power_labels` table (which covers only B,
kB, MB, GB) has no entry, and `exists` with `format_size = True` raises a
lookup error instead of returning a value. -/
theorem C10_format_size_overflow (pfx : PyStr) (resp : S3Resp)
    (h : 1024 ^ 4 < sumMatched pfx resp) :
    s3_exists pfx true resp = .error .keyError := by
  have hs0 : sumMatched pfx resp ≠ 0 := by
    intro h0
    rw [h0] at h
    norm_num at h
  have h4 : 4 ≤ fmtN (sumMatched pfx resp) := by
    have hstep := divLoopN_lower 4 64 (sumMatched pfx resp) 0 (by norm_num) (by simpa using h)
    simpa [fmtN] using hstep
  have hnone : formatFileSize (sumMatched pfx resp) = none := by
    simp [formatFileSize, powerLabels_ge4 _ h4]
  simp [s3_exists, hs0, hnone]

/-- C10 (witness): the overflow theorem at a listing holding one object of
1024^4 + 1 bytes. -/
theorem C10_witness :
    s3_exists (pyS "k") true (mkResponse [(pyS "kx", 1024 ^ 4 + 1)] (pyS "k"))
      = .error .keyError :=
  C10_format_size_overflow (pyS "k") (mkResponse [(pyS "kx", 1024 ^ 4 + 1)] (pyS "k"))
    (by decide)
